import Mathlib

/-!
Shallow embedding of the guideline-PDF batch downloader
(`download_pdfs_latest copy.py` and `download_functions.py`).

Browser, network and filesystem effects are modelled as explicit
environment records: each field of an environment stands for the outcome
of one external call the Python code performs (a navigation, an element
lookup, an HTTP transfer, ...).  `Res α` models a Python call that either
returns a value or raises an exception that the caller did not catch.
Python string operations are re-implemented by structural recursion over
`List Char` so that every definition evaluates inside the kernel.
-/

namespace PdfBatch

/-- An uncaught Python exception (`raised`) or a normal return (`ok`). -/
inductive Res (α : Type) where
  | raised (msg : String)
  | ok (val : α)
deriving DecidableEq, Repr

/-- True when no exception escaped. -/
def Res.isOk {α : Type} : Res α → Bool
  | .raised _ => false
  | .ok _ => true

/-- Python truthiness of an optional string: `None` and `""` are falsy. -/
def pyTruthy : Option String → Bool
  | none => false
  | some s => !s.toList.isEmpty

/-- Replace every occurrence of the character `a` by `rep` (Python
`str.replace` restricted to one-character patterns, which is all the
source uses). -/
def replaceChar (a : Char) (rep : List Char) : List Char → List Char
  | [] => []
  | c :: rest => (if c = a then rep else [c]) ++ replaceChar a rep rest

/-- Python `str.replace(old, new)` for a one-character `old`. -/
def pyReplace (s : String) (a : Char) (rep : String) : String :=
  String.mk (replaceChar a rep.toList s.toList)

/-- Python `str.lower()`. -/
def pyLower (s : String) : String := String.mk (s.toList.map Char.toLower)

/-- Does `pat` occur as a contiguous sublist? (Python `pat in s` on strings.) -/
def subOf (pat : List Char) : List Char → Bool
  | [] => pat.isPrefixOf []
  | c :: rest => pat.isPrefixOf (c :: rest) || subOf pat rest

/-- Python `pat in s` for strings. -/
def hasSubstr (s pat : String) : Bool := subOf pat.toList s.toList

/-- Python `s.endswith(suf)`. -/
def pyEndsWith (s suf : String) : Bool := suf.toList.isSuffixOf s.toList

/-- Python `s.startswith(pre)`. -/
def pyStartsWith (s pre : String) : Bool := pre.toList.isPrefixOf s.toList

/-- Python `s.strip()`: drop whitespace from both ends. -/
def pyStrip (s : String) : String :=
  String.mk ((s.toList.dropWhile Char.isWhitespace).reverse.dropWhile Char.isWhitespace).reverse

/-- Python `s.rstrip("/")`. -/
def rstripSlash (s : String) : String :=
  String.mk (s.toList.reverse.dropWhile (fun c => c = '/')).reverse

/-- Python `url.split("#")[0]`: the part before the first `#`. -/
def stripFragment (s : String) : String :=
  String.mk (s.toList.takeWhile (fun c => c != '#'))

/-- Python `url.split("/PMC")[0]`: the part before the first occurrence of
`"/PMC"` (the whole string when the marker is absent). -/
def beforePMC (s : String) : String :=
  String.mk (beforeMarker "/PMC".toList s.toList)
where
  beforeMarker (pat : List Char) : List Char → List Char
    | [] => []
    | c :: rest => if pat.isPrefixOf (c :: rest) then [] else c :: beforeMarker pat rest

/-- First-occurrence deduplication, keyed on the strings themselves.
CPython's `list(set(...))` iterates a hash set whose order is
implementation-defined; the embedding fixes first-occurrence order, and
every theorem below either quantifies over the link list or uses inputs
on which deduplication is the identity. -/
def dedupFirstAux (seen : List String) : List String → List String
  | [] => []
  | x :: rest => if x ∈ seen then dedupFirstAux seen rest else x :: dedupFirstAux (x :: seen) rest

/-- Python `list(set(xs))`, modelled as first-occurrence deduplication. -/
def dedupFirst (xs : List String) : List String := dedupFirstAux [] xs

/-- Folder name computed by the batch loop:
`os.path.join(OUTPUT_FOLDER, title.replace(" ", "_").replace(":", "").replace("/", ""))`. -/
def sanitizeTitle (t : String) : String :=
  pyReplace (pyReplace (pyReplace t ' ' "_") ':' "") '/' ""

/-- The `folder_name` the batch loop computes for a title. -/
def folderPath (t : String) : String := "guidelines_database/" ++ sanitizeTitle t

/-- The `save_path` for a title: the PDF file inside the title's folder. -/
def savePath (t : String) : String := folderPath t ++ "/" ++ sanitizeTitle t ++ ".pdf"

/-! ## Page extractors (`extract_pmc_pdf`, `extract_pdf_from_webpage`)

An `ExtractPage` is the environment for one visit of a concrete URL:
the outcome of `driver.get` (outside the `try`, so a raise propagates)
and the outcome of waiting for an `a[href$='.pdf']` element and reading
its `href` (inside the `try`). -/

structure ExtractPage where
  navigate : Res Unit
  pdfHref : Res String
deriving DecidableEq, Repr

/-- Embeds `extract_pmc_pdf(driver, pmc_url)`: wait for a PDF anchor on a PMC
page; an href starting with `/pdf` is resolved against
`pmc_url.split("/PMC")[0]`.  The wait/read fault is absorbed to `none`;
a fault in the initial `driver.get` propagates. -/
def extract_pmc_pdf (page : ExtractPage) (pmc_url : String) : Res (Option String) :=
  match page.navigate with
  | .raised e => .raised e
  | .ok _ =>
    match page.pdfHref with
    | .raised _ => .ok none
    | .ok href =>
      if pyStartsWith href "/pdf" then .ok (some (beforePMC pmc_url ++ href))
      else .ok (some href)

/-- Embeds `extract_pdf_from_webpage(driver, webpage_url)`: like
`extract_pmc_pdf` but a site-relative href (starting with `/`) is
resolved against `webpage_url.rstrip("/")`. -/
def extract_pdf_from_webpage (page : ExtractPage) (webpage_url : String) : Res (Option String) :=
  match page.navigate with
  | .raised e => .raised e
  | .ok _ =>
    match page.pdfHref with
    | .raised _ => .ok none
    | .ok href =>
      if pyStartsWith href "/" then .ok (some (rstripSlash webpage_url ++ href))
      else .ok (some href)

/-! ## Trip Database strategy (`search_trip_database`) -/

/-- Environment for one Trip Database search: the initial `driver.get`
(outside the `try`) and the element lookups inside the `try`. -/
structure TripEnv where
  navigate : Res Unit
  resultCard : Res Unit
  titleText : Res String
  categoryText : Res String
  pdfHrefs : List String
deriving DecidableEq, Repr

/-- Embeds `search_trip_database(driver, expected_title)`: verify the first
result's title case-insensitively (after `strip()`), then extract the
category badge text and the first PDF link of the card.  Any fault
inside the `try` yields `(None, None)`; a fault in the initial
`driver.get` propagates. -/
def search_trip_database (env : TripEnv) (expected_title : String) :
    Res (Option String × Option String) :=
  match env.navigate with
  | .raised e => .raised e
  | .ok _ =>
    match env.resultCard with
    | .raised _ => .ok (none, none)
    | .ok _ =>
      match env.titleText with
      | .raised _ => .ok (none, none)
      | .ok raw =>
        let actual_title := pyStrip raw
        if pyLower actual_title ≠ pyLower expected_title then .ok (none, none)
        else
          match env.categoryText with
          | .raised _ => .ok (none, none)
          | .ok rawCat => .ok (some (pyStrip rawCat), env.pdfHrefs.head?)

/-! ## EBM Portal strategy (`search_ebm_portal`) -/

/-- Environment for one EBM Portal search: the initial `driver.get`
(outside the `try`), then the result-article wait, the click, and the
PDF-anchor wait (all inside the `try`). -/
structure EbmEnv where
  navigate : Res Unit
  firstResult : Res Unit
  clickResult : Res Unit
  pdfHref : Res String
deriving DecidableEq, Repr

/-- Embeds `search_ebm_portal(driver, title)`: click the first result and read
the styled PDF anchor's href.  Any fault inside the `try` yields `None`;
a fault in the initial `driver.get` propagates. -/
def search_ebm_portal (env : EbmEnv) : Res (Option String) :=
  match env.navigate with
  | .raised e => .raised e
  | .ok _ =>
    match env.firstResult with
    | .raised _ => .ok none
    | .ok _ =>
      match env.clickResult with
      | .raised _ => .ok none
      | .ok _ =>
        match env.pdfHref with
        | .raised _ => .ok none
        | .ok href => .ok (some href)

/-! ## Google fallback strategy (`google_search_for_pdf`) -/

/-- Environment for one Google search: the initial `driver.get` (outside
the `try`), the raw hrefs of the organic results (inside the `try`), and
the page environments for any PMC / generic webpage the strategy decides
to visit. -/
structure GoogleEnv where
  navigate : Res Unit
  rawLinks : Res (List String)
  pmcPage : String → ExtractPage
  webPage : String → ExtractPage

/-- Outcome of the scan over the deduplicated links: either an early
return with a direct PDF link, or the pair of candidates left in
`pmc_url` / `webpage_url` after the loop. -/
inductive ScanOutcome where
  | pdf (url : String)
  | candidates (pmc_url webpage_url : Option String)
deriving DecidableEq, Repr

/-- The `for url in links` loop of `google_search_for_pdf`: skip links
containing `"login"` (case-insensitively); return the first link ending
in `".pdf"`; otherwise `pmc_url = url` on every PMC-domain match (last
match wins) and `webpage_url = url` for the first link of any kind. -/
def scanLinks : List String → Option String → Option String → ScanOutcome
  | [], pmc_url, webpage_url => .candidates pmc_url webpage_url
  | url :: rest, pmc_url, webpage_url =>
    if hasSubstr (pyLower url) "login" then scanLinks rest pmc_url webpage_url
    else if pyEndsWith (pyLower url) ".pdf" then .pdf url
    else
      let pmc' := if hasSubstr url "pmc.ncbi.nlm.nih.gov" then some url else pmc_url
      let web' := if webpage_url = none then some url else webpage_url
      scanLinks rest pmc' web'

/-- Embeds `google_search_for_pdf(driver, title)`: strip fragments from the top-3
result hrefs, deduplicate, scan, then prefer a direct PDF, else the PMC
candidate (via `extract_pmc_pdf`), else the webpage candidate (declined
when it contains `"login"`, else via `extract_pdf_from_webpage`).  Every
fault inside the `try` — including one propagating out of an extractor's
own `driver.get` — is absorbed to `None`; a fault in the initial
`driver.get` propagates. -/
def google_search_for_pdf (env : GoogleEnv) : Res (Option String) :=
  match env.navigate with
  | .raised e => .raised e
  | .ok _ =>
    match env.rawLinks with
    | .raised _ => .ok none
    | .ok raw =>
      let links := dedupFirst ((raw.take 3).map stripFragment)
      match scanLinks links none none with
      | .pdf url => .ok (some url)
      | .candidates pmc_url webpage_url =>
        if pyTruthy pmc_url then
          match extract_pmc_pdf (env.pmcPage (pmc_url.getD "")) (pmc_url.getD "") with
          | .raised _ => .ok none
          | .ok v => .ok v
        else if pyTruthy webpage_url then
          if hasSubstr (pyLower (webpage_url.getD "")) "login" then .ok none
          else
            match extract_pdf_from_webpage (env.webPage (webpage_url.getD "")) (webpage_url.getD "") with
            | .raised _ => .ok none
            | .ok v => .ok v
        else .ok none

/-! ## Spec-side descriptions of the Google scan

`scanLinksSpec` follows the specification's words for the link scan
("remember the **first** link whose domain matches the PMC pattern as
the PMC candidate and the first **other** link as the generic webpage
candidate").  `scanLinksSpecAmended` is the same description with the
single change the code forces: the **last** PMC-domain match wins.
These two definitions are transcribed from the spec, not from the
source; they exist to be compared with `scanLinks`. -/

def scanLinksSpec : List String → Option String → Option String → ScanOutcome
  | [], pmc_url, webpage_url => .candidates pmc_url webpage_url
  | url :: rest, pmc_url, webpage_url =>
    if hasSubstr (pyLower url) "login" then scanLinksSpec rest pmc_url webpage_url
    else if pyEndsWith (pyLower url) ".pdf" then .pdf url
    else if hasSubstr url "pmc.ncbi.nlm.nih.gov" then
      scanLinksSpec rest (if pmc_url = none then some url else pmc_url) webpage_url
    else
      scanLinksSpec rest pmc_url (if webpage_url = none then some url else webpage_url)

/-- The scan `scanLinksSpec` with first-PMC-wins replaced by last-PMC-wins. -/
def scanLinksSpecAmended : List String → Option String → Option String → ScanOutcome
  | [], pmc_url, webpage_url => .candidates pmc_url webpage_url
  | url :: rest, pmc_url, webpage_url =>
    if hasSubstr (pyLower url) "login" then scanLinksSpecAmended rest pmc_url webpage_url
    else if pyEndsWith (pyLower url) ".pdf" then .pdf url
    else if hasSubstr url "pmc.ncbi.nlm.nih.gov" then
      scanLinksSpecAmended rest (some url) webpage_url
    else
      scanLinksSpecAmended rest pmc_url (if webpage_url = none then some url else webpage_url)

/-- Candidate selection after the scan, as the spec describes it (and as
the code performs it): direct PDF first, then the PMC candidate, then
the webpage candidate unless it contains `"login"`. -/
def googleAfterScan (env : GoogleEnv) : ScanOutcome → Res (Option String)
  | .pdf url => .ok (some url)
  | .candidates pmc_url webpage_url =>
    if pyTruthy pmc_url then
      match extract_pmc_pdf (env.pmcPage (pmc_url.getD "")) (pmc_url.getD "") with
      | .raised _ => .ok none
      | .ok v => .ok v
    else if pyTruthy webpage_url then
      if hasSubstr (pyLower (webpage_url.getD "")) "login" then .ok none
      else
        match extract_pdf_from_webpage (env.webPage (webpage_url.getD "")) (webpage_url.getD "") with
        | .raised _ => .ok none
        | .ok v => .ok v
    else .ok none

/-- The Google fallback as claim C5 words it: the scan keeps the first
PMC match and the first non-PMC link. -/
def google_search_spec (env : GoogleEnv) : Res (Option String) :=
  match env.navigate with
  | .raised e => .raised e
  | .ok _ =>
    match env.rawLinks with
    | .raised _ => .ok none
    | .ok raw =>
      let links := dedupFirst ((raw.take 3).map stripFragment)
      googleAfterScan env (scanLinksSpec links none none)

/-- The Google fallback with the amended scan (last PMC match wins). -/
def google_search_spec_amended (env : GoogleEnv) : Res (Option String) :=
  match env.navigate with
  | .raised e => .raised e
  | .ok _ =>
    match env.rawLinks with
    | .raised _ => .ok none
    | .ok raw =>
      let links := dedupFirst ((raw.take 3).map stripFragment)
      googleAfterScan env (scanLinksSpecAmended links none none)

/-- The URL `google_search_for_pdf` either returns directly (a scanned
link ending in `.pdf`) or navigates to (the PMC candidate or the
accepted webpage candidate); `none` when it declines without visiting
anything.  This is the observable claim C6 constrains. -/
def googleSelected (env : GoogleEnv) : Option String :=
  match env.navigate, env.rawLinks with
  | .ok _, .ok raw =>
    let links := dedupFirst ((raw.take 3).map stripFragment)
    match scanLinks links none none with
    | .pdf url => some url
    | .candidates pmc_url webpage_url =>
      if pyTruthy pmc_url then pmc_url
      else if pyTruthy webpage_url &&
              !(hasSubstr (pyLower (webpage_url.getD "")) "login") then webpage_url
      else none
  | _, _ => none

/-! ## Downloader (`download_pdf_file`) -/

/-- Outcome of `requests.get` in the fallback path: either the request
itself raises a `RequestException`, or a response arrives with a status
code and a body stream that either yields all its bytes or faults midway
(a streaming fault is also a `RequestException`). -/
inductive ReqOutcome where
  | connectFail
  | response (status : Nat) (body : Res (List Nat))
deriving DecidableEq, Repr

/-- Environment for one download: `wget.download`'s outcome (the bytes it
wrote on success, `none` when it raised anything), the `requests.get`
outcome, and whether opening/writing the destination file succeeds. -/
structure DownloadEnv where
  wgetResult : Option (List Nat)
  req : ReqOutcome
  writeOk : Bool
deriving DecidableEq, Repr

/-- Result of `download_pdf_file`, one constructor per exit path: success
via wget, success via requests, or the three distinctly-logged failure
branches of the fallback (`HTTPError`, `RequestException`, unexpected). -/
inductive DlResult where
  | okWget (bytes : List Nat)
  | okRequests (bytes : List Nat)
  | failHttp
  | failTransport
  | failUnexpected
deriving DecidableEq, Repr

/-- The boolean `download_pdf_file` returns. -/
def DlResult.toBool : DlResult → Bool
  | .okWget _ => true
  | .okRequests _ => true
  | _ => false

/-- The bytes written to `save_path` when the download succeeded. -/
def DlResult.writtenBytes : DlResult → Option (List Nat)
  | .okWget b => some b
  | .okRequests b => some b
  | _ => none

/-- Embeds `download_pdf_file(pdf_url, save_path)`: try `wget.download`; on any
exception fall back to a streaming `requests.get`.  `raise_for_status`
raises `HTTPError` for 4xx/5xx; a request or streaming fault is a
`RequestException`; a file-write fault lands in the catch-all branch.
Every branch returns a boolean — nothing propagates to the caller. -/
def download_pdf_file (env : DownloadEnv) : DlResult :=
  match env.wgetResult with
  | some bytes => .okWget bytes
  | none =>
    match env.req with
    | .connectFail => .failTransport
    | .response status body =>
      if 400 ≤ status ∧ status < 600 then .failHttp
      else
        match body with
        | .raised _ => .failTransport
        | .ok bytes => if env.writeOk then .okRequests bytes else .failUnexpected

/-! ## Resolver (`get_category_and_pdf`) -/

/-- Environment for one title's resolution: the three strategy
environments. -/
structure ResolveEnv where
  ebm : EbmEnv
  trip : TripEnv
  google : GoogleEnv

/-- What one call of `get_category_and_pdf` did: its return value (or the
exception that escaped it), how many browser sessions `setup_selenium`
created, and whether `driver.quit()` ran before control left the
function. -/
structure ResolveResult where
  result : Res (Option String × Option String)
  sessionsOpened : Nat
  sessionClosed : Bool

/-- Embeds `get_category_and_pdf(title)`: one `setup_selenium()` session, then
EBM Portal, Trip Database (only if no PDF yet, and it overwrites
`category`), Google (only if still no PDF, `category` untouched), then
`driver.quit()`.  There is no `try`/`finally`: an exception escaping a
strategy leaves the function before `quit` runs. -/
def get_category_and_pdf (env : ResolveEnv) (title : String) : ResolveResult :=
  match search_ebm_portal env.ebm with
  | .raised e => ⟨.raised e, 1, false⟩
  | .ok pdf1 =>
    if pyTruthy pdf1 then ⟨.ok (none, pdf1), 1, true⟩
    else
      match search_trip_database env.trip title with
      | .raised e => ⟨.raised e, 1, false⟩
      | .ok (category, pdf2) =>
        if pyTruthy pdf2 then ⟨.ok (category, pdf2), 1, true⟩
        else
          match google_search_for_pdf env.google with
          | .raised e => ⟨.raised e, 1, false⟩
          | .ok pdf3 => ⟨.ok (category, pdf3), 1, true⟩

/-! ## Filesystem model

Directories and files touched by the batch loop.  `rmtree` removes a
directory together with everything strictly below it, mirroring
`shutil.rmtree`. -/

structure FS where
  dirs : List String
  files : List (String × List Nat)
deriving DecidableEq, Repr

/-- Python `os.path.exists` on a directory path. -/
def FS.dirExists (fs : FS) (p : String) : Bool := p ∈ fs.dirs

/-- Content of the file at `p`, when present. -/
def FS.fileContent (fs : FS) (p : String) : Option (List Nat) :=
  (fs.files.find? (fun e => e.1 = p)).map (fun e => e.2)

/-- Is `q` the path `p` itself or a path strictly below the directory `p`? -/
def underPath (p q : String) : Bool := q = p || pyStartsWith q (p ++ "/")

/-- Python `os.makedirs(p, exist_ok=True)` (parents are irrelevant to the claims
and not tracked). -/
def FS.mkdirAt (fs : FS) (p : String) : FS :=
  { fs with dirs := if p ∈ fs.dirs then fs.dirs else p :: fs.dirs }

/-- Create or overwrite the file at `p`. -/
def FS.writeFile (fs : FS) (p : String) (bytes : List Nat) : FS :=
  { fs with files := (p, bytes) :: fs.files.filter (fun e => e.1 ≠ p) }

/-- Python `shutil.rmtree(p)`: delete the directory `p` and its whole subtree. -/
def FS.rmtree (fs : FS) (p : String) : FS :=
  { dirs := fs.dirs.filter (fun d => !underPath p d),
    files := fs.files.filter (fun e => !underPath p e.1) }

/-! ## Batch runner (the `__main__` loop) -/

/-- The checkpoint JSON: `{"completed": [...], "failed": [...]}`. -/
structure Checkpoint where
  completed : List String
  failed : List String
deriving DecidableEq, Repr

/-- One output record: a guideline dict with the fields the loop touches. -/
structure Item where
  title : String
  pdf_saved : Bool
  pdf_link : String
deriving DecidableEq, Repr

/-- Environment for one iteration of the batch loop: the resolution
environment, the download environment, and whether `os.makedirs` inside
the `try` raises (caught there and turned into a failed save). -/
structure ItemEnv where
  resolve : ResolveEnv
  download : DownloadEnv
  makedirsFault : Bool

/-- Checkpoint plus filesystem: the state the loop threads through. -/
structure BatchState where
  cp : Checkpoint
  fs : FS
deriving DecidableEq, Repr

/-- The guarded save block (`try: os.makedirs(...); download_pdf_file(...)`):
run only when `pdf_url` is truthy.  A `makedirs` fault is caught there
and leaves `pdf_saved_status = False`; `download_pdf_file` itself never
raises.  Returns the status together with the filesystem after the
block. -/
def saveStep (env : ItemEnv) (fs : FS) (title : String) (pdf_url : Option String) :
    Bool × FS :=
  if pyTruthy pdf_url then
    if env.makedirsFault then (false, fs)
    else
      let fsm := fs.mkdirAt (folderPath title)
      match (download_pdf_file env.download).writtenBytes with
      | some bytes => (true, fsm.writeFile (savePath title) bytes)
      | none => (false, fsm)
  else (false, fs)

/-- One iteration of the `for guideline in updated_guidelines_data` loop.
Returns the new state, the (possibly updated) record, and the exception
that aborted the iteration, if any.  The skip test consults only
`checkpoint_data["completed"]`; `get_category_and_pdf` is called outside
any `try`, so an exception it raises aborts the whole batch with the
record untouched. -/
def processItem (env : ItemEnv) (st : BatchState) (g : Item) :
    BatchState × Item × Option String :=
  if g.title ∈ st.cp.completed then (st, g, none)
  else
    match (get_category_and_pdf env.resolve g.title).result with
    | .raised e => (st, g, some e)
    | .ok (_category, pdf_url) =>
      let folder_name := folderPath g.title
      match saveStep env st.fs g.title pdf_url with
      | (pdf_saved_status, fs1) =>
        let g' : Item :=
          { g with pdf_saved := pdf_saved_status,
                   pdf_link := if pyTruthy pdf_url then pdf_url.getD "" else "" }
        let fs2 := if !pdf_saved_status && fs1.dirExists folder_name
                   then fs1.rmtree folder_name else fs1
        let cp' :=
          if pdf_saved_status
          then { st.cp with completed := st.cp.completed ++ [g.title] }
          else { st.cp with failed := st.cp.failed ++ [g.title] }
        (⟨cp', fs2⟩, g', none)

/-- The whole batch loop over the guideline list.  The environment is
keyed by title (each title triggers its own searches).  On an uncaught
exception the loop stops: the remaining records keep their input values,
matching what the last successful flush left on disk. -/
def runBatch (env : String → ItemEnv) (st : BatchState) :
    List Item → BatchState × List Item × Option String
  | [] => (st, [], none)
  | g :: rest =>
    match processItem (env g.title) st g with
    | (st', g', some e) => (st', g' :: rest, some e)
    | (st', g', none) =>
      match runBatch env st' rest with
      | (st2, rest', err) => (st2, g' :: rest', err)

/-! ## Concrete fixture environments

Small closed environments used by the counterexamples and witnesses
below.  Each one fixes the outcome of every external call. -/

/-- A page visit that succeeds and exposes the given PDF href. -/
def okPage (href : String) : ExtractPage := ⟨.ok (), .ok href⟩

/-- EBM Portal search where the result-article wait times out. -/
def ebmNone : EbmEnv := ⟨.ok (), .raised "timeout", .ok (), .raised "timeout"⟩

/-- EBM Portal search that finds the PDF href `u`. -/
def ebmFinds (u : String) : EbmEnv := ⟨.ok (), .ok (), .ok (), .ok u⟩

/-- EBM Portal search whose initial `driver.get` raises `"boom"`. -/
def ebmNavBoom : EbmEnv := ⟨.raised "boom", .ok (), .ok (), .raised "timeout"⟩

/-- Trip Database search where the result-card wait times out. -/
def tripNone : TripEnv := ⟨.ok (), .raised "timeout", .raised "t", .raised "c", []⟩

/-- Trip Database search that matches the title `"sepsis management"`
(after strip and lowering), has category badge `"Guideline"`, and no PDF
link in the card. -/
def tripCat : TripEnv := ⟨.ok (), .ok (), .ok " Sepsis Management ", .ok "Guideline", []⟩

/-- Google search that finds no organic results. -/
def googleNone : GoogleEnv := ⟨.ok (), .ok [], fun _ => okPage "", fun _ => okPage ""⟩

/-- Google search whose first organic result is a direct PDF link. -/
def googleDirectPdf : GoogleEnv :=
  ⟨.ok (), .ok ["https://a.org/x.pdf"], fun _ => okPage "", fun _ => okPage ""⟩

/-- Google search whose top results are two distinct PMC article pages;
each visited PMC page `u` exposes the PDF href `u ++ "file.pdf"`. -/
def googleTwoPmc : GoogleEnv :=
  ⟨.ok (),
   .ok ["https://pmc.ncbi.nlm.nih.gov/articles/PMC1/",
        "https://pmc.ncbi.nlm.nih.gov/articles/PMC2/"],
   fun u => okPage (u ++ "file.pdf"), fun _ => okPage ""⟩

/-- Google search finding one PMC page whose PDF anchor points at a URL
containing `"login"`. -/
def googleLoginPdf : GoogleEnv :=
  ⟨.ok (), .ok ["https://pmc.ncbi.nlm.nih.gov/articles/PMC1/"],
   fun _ => okPage "https://evil.org/login/file.pdf", fun _ => okPage ""⟩

/-- Resolution where all three strategies decline: `(None, None)`. -/
def resolveFail : ResolveEnv := ⟨ebmNone, tripNone, googleNone⟩

/-- Resolution where the EBM Portal finds the PDF href `u`. -/
def resolveOk (u : String) : ResolveEnv := ⟨ebmFinds u, tripNone, googleNone⟩

/-- Resolution whose first strategy raises from its initial navigation. -/
def resolveNavBoom : ResolveEnv := ⟨ebmNavBoom, tripNone, googleNone⟩

/-- Download that succeeds via wget, writing `b`. -/
def dlOk (b : List Nat) : DownloadEnv := ⟨some b, .connectFail, true⟩

/-- Download where wget raises and the requests fallback also fails. -/
def dlFail : DownloadEnv := ⟨none, .connectFail, true⟩

/-- Item iteration that resolves `u` via the portal and downloads `b`. -/
def envOk (u : String) (b : List Nat) : ItemEnv := ⟨resolveOk u, dlOk b, false⟩

/-- Item iteration where resolution declines everywhere. -/
def envFail : ItemEnv := ⟨resolveFail, dlFail, false⟩

/-- Item iteration whose resolution raises from an initial navigation. -/
def envNavBoom : ItemEnv := ⟨resolveNavBoom, dlFail, false⟩

/-- Empty checkpoint and empty filesystem. -/
def emptyState : BatchState := ⟨⟨[], []⟩, ⟨[], []⟩⟩

/-- Does every strategy's initial `driver.get` succeed in this item
environment?  Faults there are the only ones `processItem` does not
absorb. -/
def navOk (e : ItemEnv) : Bool :=
  e.resolve.ebm.navigate.isOk && e.resolve.trip.navigate.isOk &&
    e.resolve.google.navigate.isOk

/-- Relation between a code-scan outcome and an amended-spec-scan
outcome: direct PDF hits agree; the PMC candidates agree and are
non-empty strings when present; the webpage candidates agree whenever no
PMC candidate exists (when one exists the webpage candidate is dead
code, since the PMC branch is preferred). -/
def scanRel : ScanOutcome → ScanOutcome → Prop
  | .pdf u, .pdf v => u = v
  | .candidates p w, .candidates q x =>
      p = q ∧ (p = none → w = x) ∧ (∀ u, p = some u → u.toList.isEmpty = false)
  | _, _ => False

/-- Login-freedom of a scan outcome: the direct PDF hit and both
remembered candidates contain no `"login"` (case-insensitively). -/
def scanLoginFree : ScanOutcome → Prop
  | .pdf u => hasSubstr (pyLower u) "login" = false
  | .candidates p w =>
      (∀ u, p = some u → hasSubstr (pyLower u) "login" = false) ∧
      (∀ u, w = some u → hasSubstr (pyLower u) "login" = false)

/-! ## Shared lemmas about one loop iteration -/

/-- The checkpoint after one iteration: unchanged (skip or abort), or the
title appended to exactly one of the two lists, and then only for a
title that was not in `completed`. -/
theorem processItem_cp_cases (env : ItemEnv) (st : BatchState) (g : Item) :
    (processItem env st g).1.cp = st.cp ∨
    (g.title ∉ st.cp.completed ∧
      ((processItem env st g).1.cp =
         ⟨st.cp.completed ++ [g.title], st.cp.failed⟩ ∨
       (processItem env st g).1.cp =
         ⟨st.cp.completed, st.cp.failed ++ [g.title]⟩)) := by
  by_cases h : g.title ∈ st.cp.completed
  · left
    simp [processItem, h]
  · rcases hres : (get_category_and_pdf env.resolve g.title).result with e | ⟨cat, pdf_url⟩
    · left
      simp [processItem, if_neg h, hres]
    · rcases hss : saveStep env st.fs g.title pdf_url with ⟨saved, fs1⟩
      right
      refine ⟨h, ?_⟩
      rcases saved with _ | _
      · right
        simp [processItem, if_neg h, hres, hss]
      · left
        simp [processItem, if_neg h, hres, hss]

/-! ## Claim C1 -/

/-- Claim C1, refuted: starting from a checkpoint whose `failed` list
contains `"t"`, the run does not skip the item — it resolves, downloads,
and rewrites the output record (`pdf_saved` flips to `true`, `pdf_link`
is filled in).  Only membership in `completed` triggers the skip. -/
theorem c1_counterexample :
    "t" ∈ (Checkpoint.mk [] ["t"]).failed ∧
    (runBatch (fun _ => envOk "u" [1]) ⟨⟨[], ["t"]⟩, ⟨[], []⟩⟩
        [⟨"t", false, ""⟩]).2.1 = [⟨"t", true, "u"⟩] := by
  decide

/-- Claim C1 as amended: for a title already in the `completed`
checkpoint list the iteration is skipped entirely — independently of the
environment, the state and the record are returned unchanged and no
error is raised.  (Titles only in `failed` are re-processed.) -/
theorem c1_completed_skip (env : ItemEnv) (st : BatchState) (g : Item)
    (h : g.title ∈ st.cp.completed) :
    processItem env st g = (st, g, none) := by
  simp [processItem, h]

/-- Witness for `c1_completed_skip` at a concrete checkpoint. -/
theorem c1_completed_skip_witness :
    processItem envFail ⟨⟨["t"], []⟩, ⟨[], []⟩⟩ ⟨"t", false, ""⟩ =
      (⟨⟨["t"], []⟩, ⟨[], []⟩⟩, ⟨"t", false, ""⟩, none) :=
  c1_completed_skip envFail ⟨⟨["t"], []⟩, ⟨[], []⟩⟩ ⟨"t", false, ""⟩ (by decide)

/-! ## Claim C2 -/

/-- Claim C2, refuted: a first run in which `"t"` fails puts it in
`failed`; because only `completed` is consulted for skipping, a second
run re-processes `"t"`, succeeds, and appends it to `completed` — after
which the title is in both checkpoint lists. -/
theorem c2_counterexample :
    "t" ∈ (runBatch (fun _ => envOk "u" [1])
        (runBatch (fun _ => envFail) emptyState [⟨"t", false, ""⟩]).1
        [⟨"t", false, ""⟩]).1.cp.completed ∧
    "t" ∈ (runBatch (fun _ => envOk "u" [1])
        (runBatch (fun _ => envFail) emptyState [⟨"t", false, ""⟩]).1
        [⟨"t", false, ""⟩]).1.cp.failed := by
  decide

/-- Disjointness is preserved along the run as long as no pending title
is already in `failed` and the pending titles are pairwise distinct. -/
theorem runBatch_disjoint_aux (env : String → ItemEnv) :
    ∀ (items : List Item) (st : BatchState),
      st.cp.completed.Disjoint st.cp.failed →
      (∀ g ∈ items, g.title ∉ st.cp.failed) →
      items.Pairwise (fun a b => a.title ≠ b.title) →
      ((runBatch env st items).1.cp.completed).Disjoint
        (runBatch env st items).1.cp.failed := by
  intro items
  induction items with
  | nil =>
    intro st h1 _ _
    simpa [runBatch] using h1
  | cons g rest ih =>
    intro st h1 h2 h3
    rcases hpi : processItem (env g.title) st g with ⟨st', g', err⟩
    have hcp := processItem_cp_cases (env g.title) st g
    rw [hpi] at hcp
    have hA : st'.cp.completed.Disjoint st'.cp.failed := by
      rcases hcp with hsame | ⟨hnotc, happ | happ⟩
      · rw [hsame]; exact h1
      · rw [happ]
        intro a ha haf
        rcases List.mem_append.mp ha with ha' | ha'
        · exact h1 ha' haf
        · have : a = g.title := by simpa using ha'
          subst this
          exact h2 g (by simp) haf
      · rw [happ]
        intro a ha haf
        rcases List.mem_append.mp haf with hf' | hf'
        · exact h1 ha hf'
        · have : a = g.title := by simpa using hf'
          subst this
          exact hnotc ha
    have hB : ∀ x ∈ rest, x.title ∉ st'.cp.failed := by
      intro x hx
      have hne : x.title ≠ g.title := by
        have := (List.pairwise_cons.mp h3).1 x hx
        exact fun he => this he.symm
      rcases hcp with hsame | ⟨_, happ | happ⟩
      · rw [hsame]; exact h2 x (by simp [hx])
      · rw [happ]; exact h2 x (by simp [hx])
      · rw [happ]
        intro hmem
        rcases List.mem_append.mp hmem with hf' | hf'
        · exact h2 x (by simp [hx]) hf'
        · exact hne (by simpa using hf')
    have hC : rest.Pairwise (fun a b => a.title ≠ b.title) :=
      (List.pairwise_cons.mp h3).2
    cases err with
    | some e =>
      simp only [runBatch, hpi]
      exact hA
    | none =>
      simp only [runBatch, hpi]
      rcases hrb : runBatch env st' rest with ⟨st2, rest', err2⟩
      have := ih st' hA hB hC
      rw [hrb] at this
      simpa using this

/-- Claim C2 as amended: after a single run that starts from an empty
checkpoint, over records with pairwise distinct titles, the `completed`
and `failed` checkpoint lists are disjoint.  (Starting from a checkpoint
whose `failed` list intersects the titles, disjointness can break, as
`c2_counterexample` shows.) -/
theorem c2_disjoint_fresh_run (env : String → ItemEnv) (fs : FS) (items : List Item)
    (h : items.Pairwise (fun a b => a.title ≠ b.title)) :
    ((runBatch env ⟨⟨[], []⟩, fs⟩ items).1.cp.completed).Disjoint
      (runBatch env ⟨⟨[], []⟩, fs⟩ items).1.cp.failed :=
  runBatch_disjoint_aux env items ⟨⟨[], []⟩, fs⟩ (by simp) (by simp) h

/-- Witness for `c2_disjoint_fresh_run` on a concrete two-item batch. -/
theorem c2_disjoint_fresh_run_witness :
    ((runBatch (fun _ => envOk "u" [1]) ⟨⟨[], []⟩, ⟨[], []⟩⟩
        [⟨"a", false, ""⟩, ⟨"b", false, ""⟩]).1.cp.completed).Disjoint
      (runBatch (fun _ => envOk "u" [1]) ⟨⟨[], []⟩, ⟨[], []⟩⟩
        [⟨"a", false, ""⟩, ⟨"b", false, ""⟩]).1.cp.failed :=
  c2_disjoint_fresh_run (fun _ => envOk "u" [1]) ⟨[], []⟩
    [⟨"a", false, ""⟩, ⟨"b", false, ""⟩] (by decide)

/-! ## Claim C3 -/

/-- When its initial navigation succeeds, the EBM strategy absorbs every
other fault and returns normally. -/
theorem search_ebm_portal_ok (e : EbmEnv) (h : e.navigate.isOk = true) :
    (search_ebm_portal e).isOk = true := by
  unfold search_ebm_portal
  rcases e with ⟨nav, fr, cl, hf⟩
  cases nav with
  | raised m => simp [Res.isOk] at h
  | ok _ =>
    cases fr <;> cases cl <;> cases hf <;> simp [Res.isOk]

/-- When its initial navigation succeeds, the Trip strategy absorbs
every other fault and returns normally. -/
theorem search_trip_database_ok (e : TripEnv) (t : String)
    (h : e.navigate.isOk = true) :
    (search_trip_database e t).isOk = true := by
  rcases e with ⟨nav, card, tt, ct, hrefs⟩
  cases nav with
  | raised m => simp [Res.isOk] at h
  | ok _ =>
    cases card with
    | raised _ => simp [search_trip_database, Res.isOk]
    | ok _ =>
      cases tt with
      | raised _ => simp [search_trip_database, Res.isOk]
      | ok raw =>
        cases ct with
        | raised _ =>
          simp only [search_trip_database]
          split <;> simp [Res.isOk]
        | ok rc =>
          simp only [search_trip_database]
          split <;> simp [Res.isOk]

/-- When its initial navigation succeeds, the Google strategy absorbs
every other fault — including one raised inside a visited page's
extractor — and returns normally. -/
theorem google_search_for_pdf_ok (e : GoogleEnv) (h : e.navigate.isOk = true) :
    (google_search_for_pdf e).isOk = true := by
  unfold google_search_for_pdf
  rcases e with ⟨nav, raw, pmcP, webP⟩
  cases nav with
  | raised m => simp [Res.isOk] at h
  | ok _ =>
    cases raw with
    | raised m => simp [Res.isOk]
    | ok links =>
      simp only
      split
      · simp [Res.isOk]
      · split
        · split <;> simp [Res.isOk]
        · split
          · split
            · simp [Res.isOk]
            · split <;> simp [Res.isOk]
          · simp [Res.isOk]

/-- When all three initial navigations succeed, resolution never lets an
exception escape. -/
theorem get_category_and_pdf_ok (env : ResolveEnv) (title : String)
    (h : navOk ⟨env, dlFail, false⟩ = true) :
    (get_category_and_pdf env title).result.isOk = true := by
  simp only [navOk, Bool.and_eq_true] at h
  obtain ⟨⟨h1, h2⟩, h3⟩ := h
  unfold get_category_and_pdf
  rcases he : search_ebm_portal env.ebm with m | p1
  · have := search_ebm_portal_ok env.ebm h1
    rw [he] at this
    simp [Res.isOk] at this
  · rcases ht : search_trip_database env.trip title with m | ⟨cat, p2⟩
    · have := search_trip_database_ok env.trip title h2
      rw [ht] at this
      simp [Res.isOk] at this
    · rcases hg : google_search_for_pdf env.google with m | p3
      · have := google_search_for_pdf_ok env.google h3
        rw [hg] at this
        simp [Res.isOk] at this
      · cases hp1 : pyTruthy p1 <;> cases hp2 : pyTruthy p2 <;>
          simp [Res.isOk, hp1, hp2]

/-- An iteration whose item environment has working initial navigations
never aborts. -/
theorem processItem_no_err (env : ItemEnv) (st : BatchState) (g : Item)
    (h : navOk env = true) :
    (processItem env st g).2.2 = none := by
  by_cases hc : g.title ∈ st.cp.completed
  · simp [processItem, hc]
  · have hok := get_category_and_pdf_ok env.resolve g.title (by
      simpa [navOk] using h)
    rcases hres : (get_category_and_pdf env.resolve g.title).result with m | ⟨cat, pdf_url⟩
    · rw [hres] at hok
      simp [Res.isOk] at hok
    · rcases hss : saveStep env st.fs g.title pdf_url with ⟨saved, fs1⟩
      simp [processItem, if_neg hc, hres, hss]

/-- Claim C3, refuted: an exception raised by a strategy's initial
`driver.get` (which sits outside that strategy's `try` block) propagates
out of `get_category_and_pdf`, is not caught by the batch loop, and
aborts the run — the first item is recorded nowhere and the second item
is never processed. -/
theorem c3_counterexample :
    (runBatch (fun _ => envNavBoom) emptyState
        [⟨"a", false, ""⟩, ⟨"b", false, ""⟩]).2.2 = some "boom" ∧
    (runBatch (fun _ => envNavBoom) emptyState
        [⟨"a", false, ""⟩, ⟨"b", false, ""⟩]).1.cp = ⟨[], []⟩ ∧
    (runBatch (fun _ => envNavBoom) emptyState
        [⟨"a", false, ""⟩, ⟨"b", false, ""⟩]).2.1 =
      [⟨"a", false, ""⟩, ⟨"b", false, ""⟩] := by
  decide

/-- Claim C3 as amended: every fault except one raised by a strategy's
initial navigation is absorbed at the strategy or item boundary, so if
each item environment's three initial `driver.get` calls succeed, the
batch processes every item and never aborts. -/
theorem c3_no_abort (env : String → ItemEnv) (st : BatchState) (items : List Item)
    (h : ∀ t, navOk (env t) = true) :
    (runBatch env st items).2.2 = none := by
  induction items generalizing st with
  | nil => simp [runBatch]
  | cons g rest ih =>
    rcases hpi : processItem (env g.title) st g with ⟨st', g', err⟩
    have herr : err = none := by
      have := processItem_no_err (env g.title) st g (h g.title)
      rw [hpi] at this
      simpa using this
    subst herr
    simp only [runBatch, hpi]
    rcases hrb : runBatch env st' rest with ⟨st2, rest', err2⟩
    have := ih st'
    rw [hrb] at this
    simpa using this

/-- Witness for `c3_no_abort`: a run over two items with declining but
non-raising strategies finishes without aborting. -/
theorem c3_no_abort_witness :
    (runBatch (fun _ => envFail) emptyState
        [⟨"a", false, ""⟩, ⟨"b", false, ""⟩]).2.2 = none :=
  c3_no_abort (fun _ => envFail) emptyState
    [⟨"a", false, ""⟩, ⟨"b", false, ""⟩]
    (fun _ => (by decide : navOk envFail = true))

/-! ## Claim C4 -/

/-- Claim C4, refuted: `get_category_and_pdf` has no `try`/`finally`
around `driver.quit()`, so when the first strategy's initial navigation
raises, the exception escapes and the browser session is never torn
down. -/
theorem c4_counterexample :
    (get_category_and_pdf resolveNavBoom "t").result = .raised "boom" ∧
    (get_category_and_pdf resolveNavBoom "t").sessionClosed = false := by
  decide

/-- Claim C4 as amended: each call of `get_category_and_pdf` creates
exactly one browser session, and on every normal (non-raising) return
path `driver.quit()` runs before the function returns; only when an
exception escapes a strategy does the session leak. -/
theorem c4_session_closed (env : ResolveEnv) (title : String) :
    (get_category_and_pdf env title).sessionsOpened = 1 ∧
    ((get_category_and_pdf env title).result.isOk = true →
      (get_category_and_pdf env title).sessionClosed = true) := by
  unfold get_category_and_pdf
  rcases search_ebm_portal env.ebm with m | p1
  · simp [Res.isOk]
  · by_cases h1 : pyTruthy p1 = true
    · simp [h1]
    · rcases search_trip_database env.trip title with m | ⟨cat, p2⟩
      · simp [h1, Res.isOk]
      · by_cases h2 : pyTruthy p2 = true
        · simp [h1, h2]
        · rcases google_search_for_pdf env.google with m | p3
          · simp [h1, h2, Res.isOk]
          · simp [h1, h2]

/-- Witness for `c4_session_closed` on a concrete environment where all
strategies decline: the session is closed. -/
theorem c4_session_closed_witness :
    (get_category_and_pdf resolveFail "t").sessionsOpened = 1 ∧
    ((get_category_and_pdf resolveFail "t").result.isOk = true →
      (get_category_and_pdf resolveFail "t").sessionClosed = true) :=
  c4_session_closed resolveFail "t"

/-! ## Claim C5 -/

/-- A string that contains the PMC domain marker is not empty. -/
theorem pmc_match_ne_empty (u : String)
    (h : hasSubstr u "pmc.ncbi.nlm.nih.gov" = true) :
    u.toList.isEmpty = false := by
  obtain ⟨data⟩ := u
  cases data with
  | nil => exact absurd h (by decide)
  | cons c cs => simp [String.toList]

/-- The code's scan and the amended spec scan stay related from related
accumulators. -/
theorem scan_agree (links : List String) :
    ∀ (pmc web webS : Option String),
      (pmc = none → web = webS) →
      (∀ u, pmc = some u → u.toList.isEmpty = false) →
      scanRel (scanLinks links pmc web) (scanLinksSpecAmended links pmc webS) := by
  induction links with
  | nil =>
    intro pmc web webS h1 h2
    exact ⟨rfl, h1, h2⟩
  | cons url rest ih =>
    intro pmc web webS h1 h2
    simp only [scanLinks, scanLinksSpecAmended]
    by_cases hlog : hasSubstr (pyLower url) "login" = true
    · simp only [hlog, if_true]
      exact ih pmc web webS h1 h2
    · simp only [hlog, if_false, Bool.false_eq_true]
      by_cases hpdf : pyEndsWith (pyLower url) ".pdf" = true
      · simp only [hpdf, if_true]
        rfl
      · simp only [hpdf, if_false, Bool.false_eq_true]
        by_cases hpmc : hasSubstr url "pmc.ncbi.nlm.nih.gov" = true
        · simp only [hpmc, if_true]
          refine ih (some url) _ webS (by simp) ?_
          intro u hu
          cases hu
          exact pmc_match_ne_empty url hpmc
        · simp only [hpmc, if_false, Bool.false_eq_true]
          rcases pmc with _ | p
          · have hw := h1 rfl
            subst hw
            exact ih none _ _ (fun _ => rfl) h2
          · exact ih (some p) (if web = none then some url else web)
              (if webS = none then some url else webS) (by simp) h2

/-- Claim C5, refuted: with two distinct PMC article links among the top
results (and no direct PDF), the code visits the **last** PMC link
scanned, while the claim's description ("remember the first link whose
domain matches the PMC repository pattern") visits the first — the two
produce different URLs. -/
theorem c5_counterexample :
    google_search_for_pdf googleTwoPmc =
      .ok (some "https://pmc.ncbi.nlm.nih.gov/articles/PMC2/file.pdf") ∧
    google_search_spec googleTwoPmc =
      .ok (some "https://pmc.ncbi.nlm.nih.gov/articles/PMC1/file.pdf") ∧
    google_search_for_pdf googleTwoPmc ≠ google_search_spec googleTwoPmc := by
  decide

/-- Claim C5 as amended: the fallback deduplicates the fragment-stripped
top-3 links and classifies them in scan order — skip `"login"` links,
return the first PDF-suffixed link immediately, remember the **last**
PMC-domain link as the PMC candidate and the first remaining link as the
webpage candidate, preferring the PMC candidate after the scan.  With
that one change (first → last PMC) the spec description reproduces the
code on every environment. -/
theorem c5_amended_refinement (env : GoogleEnv) :
    google_search_for_pdf env = google_search_spec_amended env := by
  unfold google_search_for_pdf google_search_spec_amended
  rcases env with ⟨nav, raw, pmcP, webP⟩
  cases nav with
  | raised m => rfl
  | ok _ =>
    cases raw with
    | raised m => rfl
    | ok rawLinks =>
      simp only
      have h := scan_agree (dedupFirst (List.map stripFragment (rawLinks.take 3)))
        none none none (fun _ => rfl) (fun u hu => by cases hu)
      rcases hs : scanLinks (dedupFirst (List.map stripFragment (rawLinks.take 3))) none none
        with u | ⟨p, w⟩ <;>
        rcases hs' : scanLinksSpecAmended (dedupFirst (List.map stripFragment (rawLinks.take 3)))
          none none with v | ⟨q, x⟩ <;>
        rw [hs, hs'] at h
      · cases h
        rfl
      · exact absurd h (by simp [scanRel])
      · exact absurd h (by simp [scanRel])
      · obtain ⟨hpq, hwx, hne⟩ := h
        subst hpq
        simp only [googleAfterScan]
        by_cases hp : pyTruthy p = true
        · simp [hp]
        · have hpnone : p = none := by
            rcases p with _ | u
            · rfl
            · have hfalse : u.toList.isEmpty = false := hne u rfl
              refine absurd ?_ hp
              simp only [pyTruthy]
              rw [hfalse]
              rfl
          subst hpnone
          rw [hwx rfl]

/-- Witness for `c5_amended_refinement` on a concrete environment. -/
theorem c5_amended_refinement_witness :
    google_search_for_pdf googleTwoPmc = google_search_spec_amended googleTwoPmc :=
  c5_amended_refinement googleTwoPmc

/-! ## Claim C6 -/

/-- Links containing `"login"` are skipped before any candidate is
remembered, so the scan outcome is login-free whenever the initial
accumulators are. -/
theorem scan_login_free (links : List String) :
    ∀ (pmc web : Option String),
      (∀ u, pmc = some u → hasSubstr (pyLower u) "login" = false) →
      (∀ u, web = some u → hasSubstr (pyLower u) "login" = false) →
      scanLoginFree (scanLinks links pmc web) := by
  induction links with
  | nil =>
    intro pmc web h1 h2
    exact ⟨h1, h2⟩
  | cons url rest ih =>
    intro pmc web h1 h2
    simp only [scanLinks]
    by_cases hlog : hasSubstr (pyLower url) "login" = true
    · simp only [hlog, if_true]
      exact ih pmc web h1 h2
    · simp only [hlog, if_false, Bool.false_eq_true]
      have hurl : hasSubstr (pyLower url) "login" = false := by
        cases hv : hasSubstr (pyLower url) "login"
        · rfl
        · exact absurd hv hlog
      by_cases hpdf : pyEndsWith (pyLower url) ".pdf" = true
      · simp only [hpdf, if_true]
        exact hurl
      · simp only [hpdf, if_false, Bool.false_eq_true]
        refine ih _ _ ?_ ?_
        · intro u hu
          by_cases hpmc : hasSubstr url "pmc.ncbi.nlm.nih.gov" = true
          · rw [if_pos hpmc] at hu
            cases hu
            exact hurl
          · rw [if_neg hpmc] at hu
            exact h1 u hu
        · intro u hu
          by_cases hweb : web = none
          · rw [if_pos hweb] at hu
            cases hu
            exact hurl
          · rw [if_neg hweb] at hu
            exact h2 u hu

/-- Claim C6, refuted: the fallback checks `"login"` only on the links
it scans and on the webpage candidate it is about to visit — not on the
URL an extractor pulls out of a visited page.  Here the PMC page's PDF
anchor points at a `"login"` URL, and `google_search_for_pdf` returns it. -/
theorem c6_counterexample :
    google_search_for_pdf googleLoginPdf =
      .ok (some "https://evil.org/login/file.pdf") ∧
    hasSubstr (pyLower "https://evil.org/login/file.pdf") "login" = true := by
  decide

/-- Claim C6 as amended: every URL the fallback returns **directly from
the scan** or chooses to **visit** (the PMC candidate or the accepted
webpage candidate) is free of `"login"`; only a URL extracted from the
body of a visited page is returned unchecked. -/
theorem c6_selected_login_free (env : GoogleEnv) (u : String)
    (h : googleSelected env = some u) :
    hasSubstr (pyLower u) "login" = false := by
  unfold googleSelected at h
  rcases env with ⟨nav, raw, pmcP, webP⟩
  cases nav with
  | raised m => exact absurd h (by simp)
  | ok _ =>
    cases raw with
    | raised m => exact absurd h (by simp)
    | ok rawLinks =>
      simp only at h
      have hfree := scan_login_free
        (dedupFirst (List.map stripFragment (rawLinks.take 3))) none none
        (fun _ hu => by cases hu) (fun _ hu => by cases hu)
      rcases hs : scanLinks (dedupFirst (List.map stripFragment (rawLinks.take 3))) none none
        with v | ⟨p, w⟩ <;> rw [hs] at h hfree
      · cases h
        exact hfree
      · obtain ⟨hp, hw⟩ := hfree
        dsimp only at h
        by_cases hpt : pyTruthy p = true
        · rw [if_pos hpt] at h
          exact hp u h
        · rw [if_neg hpt] at h
          by_cases hwt : (pyTruthy w &&
              !hasSubstr (pyLower (w.getD "")) "login") = true
          · rw [if_pos hwt] at h
            exact hw u h
          · rw [if_neg hwt] at h
            cases h

/-- Witness for `c6_selected_login_free`: the PMC candidate selected on
`googleTwoPmc` contains no `"login"`. -/
theorem c6_selected_login_free_witness :
    hasSubstr (pyLower "https://pmc.ncbi.nlm.nih.gov/articles/PMC2/") "login" = false :=
  c6_selected_login_free googleTwoPmc
    "https://pmc.ncbi.nlm.nih.gov/articles/PMC2/" (by decide)

/-! ## Claim C7 -/

/-- Claim C7, confirmed: `download_pdf_file` is a total function into
`DlResult` — no environment makes it raise.  It returns `True` exactly
when wget succeeded or the fallback obtained a non-error response whose
body streamed and was written without fault; in both cases bytes were
written to the destination.  The three fallback failure causes map to
three distinct results (`failHttp` for a 4xx/5xx status, `failTransport`
for a request/streaming fault, `failUnexpected` for a write fault),
matching the three distinct log branches. -/
theorem c7_download_characterization (env : DownloadEnv) :
    ((download_pdf_file env).toBool = true ↔
        (env.wgetResult ≠ none ∨
          ∃ status bytes, env.req = .response status (.ok bytes) ∧
            ¬(400 ≤ status ∧ status < 600) ∧ env.writeOk = true)) ∧
    ((download_pdf_file env).toBool = true →
        ∃ bytes, (download_pdf_file env).writtenBytes = some bytes) ∧
    (download_pdf_file env = .failHttp ↔
        env.wgetResult = none ∧ ∃ status body, env.req = .response status body ∧
          400 ≤ status ∧ status < 600) ∧
    (download_pdf_file env = .failTransport ↔
        env.wgetResult = none ∧ (env.req = .connectFail ∨
          ∃ status e, env.req = .response status (.raised e) ∧
            ¬(400 ≤ status ∧ status < 600))) ∧
    (download_pdf_file env = .failUnexpected ↔
        env.wgetResult = none ∧ ∃ status bytes,
          env.req = .response status (.ok bytes) ∧
          ¬(400 ≤ status ∧ status < 600) ∧ env.writeOk = false) := by
  rcases env with ⟨w, req, wo⟩
  cases w with
  | some bytes =>
    simp [download_pdf_file, DlResult.toBool, DlResult.writtenBytes]
  | none =>
    cases req with
    | connectFail =>
      simp [download_pdf_file, DlResult.toBool, DlResult.writtenBytes]
    | response status body =>
      by_cases hs : 400 ≤ status ∧ status < 600
      · cases body <;>
          simp [download_pdf_file, DlResult.toBool, DlResult.writtenBytes, hs]
      · cases body with
        | raised e =>
          simp [download_pdf_file, DlResult.toBool, DlResult.writtenBytes, hs]
          omega
        | ok bytes =>
          cases wo <;>
            simp [download_pdf_file, DlResult.toBool, DlResult.writtenBytes, hs] <;>
            omega

/-- Witness for `c7_download_characterization`: a successful wget
download wrote its bytes. -/
theorem c7_download_characterization_witness :
    ∃ bytes, (download_pdf_file (dlOk [1])).writtenBytes = some bytes :=
  (c7_download_characterization (dlOk [1])).2.1 (by decide)

/-! ## Filesystem lemmas shared by C8 and C10 -/

/-- A path is under itself. -/
theorem underPath_self (p : String) : underPath p p = true := by
  simp [underPath]

/-- Writing a file leaves the directories unchanged. -/
theorem FS.dirExists_writeFile (fs : FS) (p : String) (b : List Nat) (d : String) :
    (fs.writeFile p b).dirExists d = fs.dirExists d := rfl

/-- The file just written is present with its content. -/
theorem FS.fileContent_writeFile_self (fs : FS) (p : String) (b : List Nat) :
    (fs.writeFile p b).fileContent p = some b := by
  unfold FS.writeFile FS.fileContent
  rw [List.find?_cons_of_pos _ (by simp)]
  rfl

/-- The directory just created exists. -/
theorem FS.dirExists_mkdirAt_self (fs : FS) (p : String) :
    (fs.mkdirAt p).dirExists p = true := by
  simp only [FS.mkdirAt, FS.dirExists]
  split <;> simp [*]

/-- Creating a directory preserves existing ones. -/
theorem FS.dirExists_mkdirAt_mono (fs : FS) (p d : String)
    (h : fs.dirExists d = true) : (fs.mkdirAt p).dirExists d = true := by
  simp only [FS.mkdirAt, FS.dirExists] at h ⊢
  split
  · exact h
  · simp at h
    simp [h]

/-- After `rmtree p`, no directory at or under `p` remains. -/
theorem FS.dirExists_rmtree (fs : FS) (p q : String)
    (h : underPath p q = true) : (fs.rmtree p).dirExists q = false := by
  simp [FS.rmtree, FS.dirExists, List.mem_filter, h]

/-- After `rmtree p`, no file at or under `p` remains. -/
theorem FS.fileContent_rmtree (fs : FS) (p q : String)
    (h : underPath p q = true) : (fs.rmtree p).fileContent q = none := by
  have hfind : (fs.files.filter (fun e => !underPath p e.1)).find?
      (fun e => e.1 = q) = none := by
    rw [List.find?_eq_none]
    intro x hx hxq
    rw [List.mem_filter] at hx
    have hx1 : x.1 = q := by simpa using hxq
    have hx2 := hx.2
    rw [hx1, h] at hx2
    simp at hx2
  simp [FS.rmtree, FS.fileContent, hfind]

/-- Explicit form of a non-skipped, non-aborting iteration. -/
theorem processItem_result (env : ItemEnv) (st : BatchState) (g : Item)
    (hskip : g.title ∉ st.cp.completed)
    (cat pdf_url : Option String) (saved : Bool) (fs1 : FS)
    (hres : (get_category_and_pdf env.resolve g.title).result = .ok (cat, pdf_url))
    (hss : saveStep env st.fs g.title pdf_url = (saved, fs1)) :
    processItem env st g =
      (⟨if saved then ⟨st.cp.completed ++ [g.title], st.cp.failed⟩
           else ⟨st.cp.completed, st.cp.failed ++ [g.title]⟩,
        if !saved && fs1.dirExists (folderPath g.title)
           then fs1.rmtree (folderPath g.title) else fs1⟩,
       { g with pdf_saved := saved,
                pdf_link := if pyTruthy pdf_url then pdf_url.getD "" else "" },
       none) := by
  simp only [processItem, if_neg hskip, hres, hss]

/-- A successful save block leaves the PDF file and the title's folder
in place. -/
theorem saveStep_success (env : ItemEnv) (fs : FS) (title : String)
    (pdf_url : Option String) (fs1 : FS)
    (h : saveStep env fs title pdf_url = (true, fs1)) :
    (∃ b, fs1.fileContent (savePath title) = some b) ∧
    fs1.dirExists (folderPath title) = true := by
  unfold saveStep at h
  by_cases hp : pyTruthy pdf_url = true
  · rw [if_pos hp] at h
    by_cases hm : env.makedirsFault = true
    · rw [if_pos hm] at h
      simp at h
    · rw [if_neg hm] at h
      cases hw : (download_pdf_file env.download).writtenBytes with
      | none =>
        rw [hw] at h
        simp at h
      | some bytes =>
        rw [hw] at h
        simp only [Prod.mk.injEq, true_and] at h
        subst h
        refine ⟨⟨bytes, FS.fileContent_writeFile_self _ _ _⟩, ?_⟩
        rw [FS.dirExists_writeFile]
        exact FS.dirExists_mkdirAt_self fs (folderPath title)
  · rw [if_neg hp] at h
    simp at h

/-- The save block never removes an existing directory. -/
theorem saveStep_dirExists_mono (env : ItemEnv) (fs : FS) (title : String)
    (pdf_url : Option String) (saved : Bool) (fs1 : FS)
    (h : saveStep env fs title pdf_url = (saved, fs1)) (d : String)
    (hd : fs.dirExists d = true) : fs1.dirExists d = true := by
  unfold saveStep at h
  by_cases hp : pyTruthy pdf_url = true
  · rw [if_pos hp] at h
    by_cases hm : env.makedirsFault = true
    · rw [if_pos hm] at h
      cases h
      exact hd
    · rw [if_neg hm] at h
      cases hw : (download_pdf_file env.download).writtenBytes with
      | none =>
        rw [hw] at h
        cases h
        exact FS.dirExists_mkdirAt_mono fs (folderPath title) d hd
      | some bytes =>
        rw [hw] at h
        cases h
        rw [FS.dirExists_writeFile]
        exact FS.dirExists_mkdirAt_mono fs (folderPath title) d hd
  · rw [if_neg hp] at h
    cases h
    exact hd

/-! ## Claim C8 -/

/-- Claim C8, refuted on the word "non-empty": a download whose
transfer yields zero bytes (an empty response body) still returns
success, so the item is recorded `pdf_saved = true` while the file at
the destination path is empty. -/
theorem c8_counterexample :
    (processItem (envOk "u" []) emptyState ⟨"t", false, ""⟩).2.1.pdf_saved = true ∧
    (processItem (envOk "u" []) emptyState ⟨"t", false, ""⟩).1.fs.fileContent
        (savePath "t") = some [] := by
  decide

/-- Claim C8 as amended: for a processed (non-skipped, non-aborting)
item — on success a file (with the downloaded bytes, possibly empty)
exists at the destination path derived from the title (spaces to
underscores, colons and slashes removed, `.pdf` suffix) and the folder
persists; on failure or when resolution yields no URL, no folder remains
at that path. -/
theorem c8_file_and_folder (env : ItemEnv) (st : BatchState) (g : Item)
    (hskip : g.title ∉ st.cp.completed)
    (herr : (processItem env st g).2.2 = none) :
    ((processItem env st g).2.1.pdf_saved = true →
      (∃ b, (processItem env st g).1.fs.fileContent (savePath g.title) = some b) ∧
      (processItem env st g).1.fs.dirExists (folderPath g.title) = true) ∧
    ((processItem env st g).2.1.pdf_saved = false →
      (processItem env st g).1.fs.dirExists (folderPath g.title) = false) := by
  rcases hres : (get_category_and_pdf env.resolve g.title).result with m | ⟨cat, pdf_url⟩
  · exfalso
    simp [processItem, if_neg hskip, hres] at herr
  · rcases hss : saveStep env st.fs g.title pdf_url with ⟨saved, fs1⟩
    have hpi := processItem_result env st g hskip cat pdf_url saved fs1 hres hss
    rw [hpi]
    dsimp only
    cases saved with
    | true =>
      constructor
      · intro _
        exact saveStep_success env st.fs g.title pdf_url fs1 hss
      · intro hfalse
        cases hfalse
    | false =>
      constructor
      · intro htrue
        cases htrue
      · intro _
        by_cases hd : fs1.dirExists (folderPath g.title) = true
        · simp only [hd, Bool.not_false, Bool.and_true, if_true]
          exact FS.dirExists_rmtree fs1 (folderPath g.title) (folderPath g.title)
            (underPath_self _)
        · simp only [Bool.not_false, Bool.true_and]
          rw [if_neg (by simpa using hd)]
          simpa using hd

/-- Witness for `c8_file_and_folder` on a successful concrete item. -/
theorem c8_file_and_folder_witness :
    (∃ b, (processItem (envOk "u" [1]) emptyState ⟨"t", false, ""⟩).1.fs.fileContent
        (savePath "t") = some b) ∧
    (processItem (envOk "u" [1]) emptyState ⟨"t", false, ""⟩).1.fs.dirExists
        (folderPath "t") = true :=
  (c8_file_and_folder (envOk "u" [1]) emptyState ⟨"t", false, ""⟩
      (by decide) (by decide)).1 (by decide)

/-! ## Claim C10 -/

/-- Claim C10, confirmed: when a processed item does not end recorded as
success and a directory already existed at its computed folder path,
`shutil.rmtree` removes the directory together with everything at or
below that path — pre-existing contents included. -/
theorem c10_rmtree_recursive (env : ItemEnv) (st : BatchState) (g : Item) (q : String)
    (hskip : g.title ∉ st.cp.completed)
    (herr : (processItem env st g).2.2 = none)
    (hsaved : (processItem env st g).2.1.pdf_saved = false)
    (hdir : st.fs.dirExists (folderPath g.title) = true)
    (hq : underPath (folderPath g.title) q = true) :
    (processItem env st g).1.fs.dirExists q = false ∧
    (processItem env st g).1.fs.fileContent q = none := by
  rcases hres : (get_category_and_pdf env.resolve g.title).result with m | ⟨cat, pdf_url⟩
  · exfalso
    simp [processItem, if_neg hskip, hres] at herr
  · rcases hss : saveStep env st.fs g.title pdf_url with ⟨saved, fs1⟩
    have hpi := processItem_result env st g hskip cat pdf_url saved fs1 hres hss
    rw [hpi] at hsaved ⊢
    dsimp only at hsaved ⊢
    cases saved with
    | true => cases hsaved
    | false =>
      have hd1 : fs1.dirExists (folderPath g.title) = true :=
        saveStep_dirExists_mono env st.fs g.title pdf_url false fs1 hss _ hdir
      simp only [hd1, Bool.not_false, Bool.and_true, if_true]
      exact ⟨FS.dirExists_rmtree fs1 (folderPath g.title) q hq,
        FS.fileContent_rmtree fs1 (folderPath g.title) q hq⟩

/-- Witness for `c10_rmtree_recursive`: a pre-existing file nested two
levels below the item's folder is gone after the failed item. -/
theorem c10_rmtree_recursive_witness :
    (processItem envFail
        ⟨⟨[], []⟩, ⟨["guidelines_database/t", "guidelines_database/t/sub"],
          [("guidelines_database/t/sub/f.pdf", [7])]⟩⟩
        ⟨"t", false, ""⟩).1.fs.dirExists "guidelines_database/t/sub/f.pdf" = false ∧
    (processItem envFail
        ⟨⟨[], []⟩, ⟨["guidelines_database/t", "guidelines_database/t/sub"],
          [("guidelines_database/t/sub/f.pdf", [7])]⟩⟩
        ⟨"t", false, ""⟩).1.fs.fileContent "guidelines_database/t/sub/f.pdf" = none :=
  c10_rmtree_recursive envFail
    ⟨⟨[], []⟩, ⟨["guidelines_database/t", "guidelines_database/t/sub"],
      [("guidelines_database/t/sub/f.pdf", [7])]⟩⟩
    ⟨"t", false, ""⟩ "guidelines_database/t/sub/f.pdf"
    (by decide) (by decide) (by decide) (by decide) (by decide)

/-! ## Claim C9 -/

/-- Claim C9, confirmed: when the portal declines, the Trip strategy
matches the title and returns a category but no PDF link, and the Google
fallback returns a URL, the resolver returns the Trip category paired
with the Google URL — the category is not reset when a later strategy
supplies the link. -/
theorem c9_category_kept_across_strategies (env : ResolveEnv) (title cat : String)
    (p1 u : Option String)
    (h1 : search_ebm_portal env.ebm = .ok p1)
    (h1f : pyTruthy p1 = false)
    (h2 : search_trip_database env.trip title = .ok (some cat, none))
    (h3 : google_search_for_pdf env.google = .ok u) :
    (get_category_and_pdf env title).result = .ok (some cat, u) := by
  unfold get_category_and_pdf
  rw [h1]
  dsimp only
  rw [h1f]
  simp only [Bool.false_eq_true, if_false]
  rw [h2]
  dsimp only
  simp only [pyTruthy, Bool.false_eq_true, if_false]
  rw [h3]

/-- Witness for `c9_category_kept_across_strategies`: the Trip card
matches `"sepsis management"` case-insensitively with category
`"Guideline"` and no card PDF, and Google finds a direct PDF. -/
theorem c9_category_kept_across_strategies_witness :
    (get_category_and_pdf ⟨ebmNone, tripCat, googleDirectPdf⟩
        "sepsis management").result =
      .ok (some "Guideline", some "https://a.org/x.pdf") :=
  c9_category_kept_across_strategies ⟨ebmNone, tripCat, googleDirectPdf⟩
    "sepsis management" "Guideline" none (some "https://a.org/x.pdf")
    (by decide) (by decide) (by decide) (by decide)

end PdfBatch
